import Mathlib

/-!
Shallow embedding of the gestionnaire backend: an Express/PostgreSQL server
exposing four routes — register, login, saveData, loadData — over two tables,
`users (username PRIMARY KEY, password)` and
`user_data (username PRIMARY KEY REFERENCES users, personnes JSONB, equipes JSONB)`.

The repository contains two near-identical server variants. Their save routes
differ: the `server.js` variant (`saveData_v1` below) performs only the document
upsert, so the foreign key from `user_data` to `users` can fail; the unnamed
variant (`saveData_v2` below) first ensures an account row with the placeholder
password `no_password_needed` via `INSERT ... ON CONFLICT DO NOTHING`.

Request bodies are modelled with `Option` fields: `none` is a field that is
absent from the JSON body (JavaScript `undefined`); `some Json.null` is a field
explicitly set to `null`. JavaScript truthiness of a JSON value is `truthy`
below, and the `x || []` normalisation performed by loadData is `jsOrEmpty`.
Response messages are modelled as the enumeration `Msg`, one constructor per
distinct French message string in the source.
-/

/-- JSON values: contents of the JSONB columns and of request/response bodies.
Numbers are modelled as integers (the float aspect plays no role here beyond
the falsiness of zero). -/
inductive Json where
  | null : Json
  | bool : Bool → Json
  | num : Int → Json
  | str : String → Json
  | arr : List Json → Json
  | obj : List (String × Json) → Json

/-- JavaScript truthiness of a JSON value: `null`, `false`, `0` and the empty
string are falsy; every array and object (empty or not) is truthy. -/
def truthy : Json → Bool
  | Json.null => false
  | Json.bool b => b
  | Json.num n => n != 0
  | Json.str s => s != ""
  | Json.arr _ => true
  | Json.obj _ => true

/-- The JavaScript expression `j || []` used by the loadData handler:
the value itself when truthy, the empty array otherwise. -/
def jsOrEmpty (j : Json) : Json :=
  if truthy j then j else Json.arr []

/-- The distinct response messages of the source, one constructor per French
string (registration/login field validation, registered, username taken,
login ok, bad credentials, save field validation, saved, save server error,
load username validation, load server error). -/
inductive Msg where
  | missingCredentials : Msg
  | registered : Msg
  | usernameTaken : Msg
  | loginOk : Msg
  | badCredentials : Msg
  | missingSaveFields : Msg
  | saved : Msg
  | saveError : Msg
  | missingUsername : Msg
  | loadError : Msg
deriving DecidableEq

/-- A response body: either `{message: ...}` or `{personnes: ..., equipes: ...}`. -/
inductive Body where
  | msg : Msg → Body
  | data : Json → Json → Body

/-- An HTTP response: status code and JSON body. -/
structure Resp where
  status : Nat
  body : Body

/-- The database: the `users` table (username, password rows in insertion
order) and the `user_data` table (username, personnes, equipes rows). -/
structure DB where
  users : List (String × String)
  docs : List (String × Json × Json)

/-- Models `SELECT * FROM users WHERE username = $1` (first matching row). -/
def findUser : List (String × String) → String → Option (String × String)
  | [], _ => none
  | r :: rs, u => if r.1 = u then some r else findUser rs u

/-- Models `SELECT * FROM users WHERE username = $1 AND password = $2`. -/
def findCred : List (String × String) → String → String → Option (String × String)
  | [], _, _ => none
  | r :: rs, u, p => if r.1 = u ∧ r.2 = p then some r else findCred rs u p

/-- Models `SELECT personnes, equipes FROM user_data WHERE username = $1`. -/
def findDoc : List (String × Json × Json) → String → Option (Json × Json)
  | [], _ => none
  | r :: rs, u => if r.1 = u then some r.2 else findDoc rs u

/-- Models `UPDATE user_data SET personnes = $2, equipes = $3` on the rows whose
username matches (the primary key makes at most one match in practice). -/
def updateDoc : List (String × Json × Json) → String → Json → Json →
    List (String × Json × Json)
  | [], _, _, _ => []
  | r :: rs, u, p, e =>
      (if r.1 = u then (r.1, p, e) else r) :: updateDoc rs u p e

/-- Models `INSERT INTO user_data ... ON CONFLICT (username) DO UPDATE ...`, including
the enforcement of the foreign key `user_data.username REFERENCES users`:
inserting a fresh row for a username with no account row is a constraint
violation, reported as `none` (the caller turns it into a 500). -/
def upsertDoc (db : DB) (u : String) (p e : Json) : Option DB :=
  match findDoc db.docs u with
  | some _ => some { db with docs := updateDoc db.docs u p e }
  | none =>
      if (findUser db.users u).isSome then
        some { db with docs := db.docs ++ [(u, p, e)] }
      else
        none

/-- The placeholder password the unnamed variant inserts when auto-creating
an account on save. -/
def sentinelPassword : String := "no_password_needed"

/-- Models the statement `INSERT INTO users ... ON CONFLICT (username) DO
NOTHING` that the save route of the unnamed variant issues with the sentinel
password as the password value. -/
def ensureUser (db : DB) (u : String) : DB :=
  match findUser db.users u with
  | some _ => db
  | none => { db with users := db.users ++ [(u, sentinelPassword)] }

/-- Handler for `POST /api/register` (identical in both variants): 400 when username or
password is absent or falsy, 409 when the username already has a row,
otherwise insert and 201. -/
def register (db : DB) (username password : Option String) : DB × Resp :=
  match username, password with
  | some u, some p =>
      if u = "" ∨ p = "" then (db, ⟨400, Body.msg Msg.missingCredentials⟩)
      else
        match findUser db.users u with
        | some _ => (db, ⟨409, Body.msg Msg.usernameTaken⟩)
        | none =>
            ({ db with users := db.users ++ [(u, p)] },
             ⟨201, Body.msg Msg.registered⟩)
  | _, _ => (db, ⟨400, Body.msg Msg.missingCredentials⟩)

/-- Handler for `POST /api/login` (identical in both variants): 400 when username or
password is absent or falsy, 200 when a row matches both username and
password exactly, 401 otherwise. -/
def login (db : DB) (username password : Option String) : DB × Resp :=
  match username, password with
  | some u, some p =>
      if u = "" ∨ p = "" then (db, ⟨400, Body.msg Msg.missingCredentials⟩)
      else
        match findCred db.users u p with
        | some _ => (db, ⟨200, Body.msg Msg.loginOk⟩)
        | none => (db, ⟨401, Body.msg Msg.badCredentials⟩)
  | _, _ => (db, ⟨400, Body.msg Msg.missingCredentials⟩)

/-- Handler for `POST /api/saveData` in `server.js`: 400 when username is absent or falsy
or when personnes or equipes is `undefined`; otherwise a single document
upsert, whose foreign-key failure surfaces as a 500 with no state change. -/
def saveData_v1 (db : DB) (username : Option String)
    (personnes equipes : Option Json) : DB × Resp :=
  match username, personnes, equipes with
  | some u, some p, some e =>
      if u = "" then (db, ⟨400, Body.msg Msg.missingSaveFields⟩)
      else
        match upsertDoc db u p e with
        | some db2 => (db2, ⟨200, Body.msg Msg.saved⟩)
        | none => (db, ⟨500, Body.msg Msg.saveError⟩)
  | _, _, _ => (db, ⟨400, Body.msg Msg.missingSaveFields⟩)

/-- Handler for `POST /api/saveData` in the unnamed variant: same validation, then an
account row is ensured with the sentinel password before the document upsert
(the ensure is kept even if the upsert were to fail — no transaction wraps
the two statements). -/
def saveData_v2 (db : DB) (username : Option String)
    (personnes equipes : Option Json) : DB × Resp :=
  match username, personnes, equipes with
  | some u, some p, some e =>
      if u = "" then (db, ⟨400, Body.msg Msg.missingSaveFields⟩)
      else
        match upsertDoc (ensureUser db u) u p e with
        | some db2 => (db2, ⟨200, Body.msg Msg.saved⟩)
        | none => (ensureUser db u, ⟨500, Body.msg Msg.saveError⟩)
  | _, _, _ => (db, ⟨400, Body.msg Msg.missingSaveFields⟩)

/-- Handler for `GET /api/loadData/:username` (identical in both variants): 400 when the
path parameter is empty, otherwise 200 with the stored values passed through
`x || []`, or `{personnes: [], equipes: []}` when no row exists. -/
def loadData (db : DB) (username : String) : DB × Resp :=
  if username = "" then (db, ⟨400, Body.msg Msg.missingUsername⟩)
  else
    match findDoc db.docs username with
    | some pe => (db, ⟨200, Body.data (jsOrEmpty pe.1) (jsOrEmpty pe.2)⟩)
    | none => (db, ⟨200, Body.data (Json.arr []) (Json.arr [])⟩)

/-- One API request, over either variant of the save route. -/
inductive Op where
  | opRegister : Option String → Option String → Op
  | opLogin : Option String → Option String → Op
  | opSave1 : Option String → Option Json → Option Json → Op
  | opSave2 : Option String → Option Json → Option Json → Op
  | opLoad : String → Op

/-- Dispatch one request to its handler. -/
def applyOp (db : DB) : Op → DB × Resp
  | Op.opRegister un pw => register db un pw
  | Op.opLogin un pw => login db un pw
  | Op.opSave1 un p e => saveData_v1 db un p e
  | Op.opSave2 un p e => saveData_v2 db un p e
  | Op.opLoad un => loadData db un

/-- Whether an operation is a save (the only kind that writes `user_data`). -/
def isSaveOp : Op → Bool
  | Op.opSave1 _ _ _ => true
  | Op.opSave2 _ _ _ => true
  | _ => false

/-- The document for `u` is present (a `user_data` row exists). -/
def docPresent (db : DB) (u : String) : Bool :=
  (findDoc db.docs u).isSome

/-- The foreign-key invariant of the schema: every `user_data` row points at
an existing `users` row. -/
def fkInv (db : DB) : Prop :=
  ∀ r ∈ db.docs, (findUser db.users r.1).isSome = true

/-! ## List-level lemmas about the table operations -/

theorem findUser_append_of_none (l1 l2 : List (String × String)) (u : String)
    (h : findUser l1 u = none) : findUser (l1 ++ l2) u = findUser l2 u := by
  induction l1 with
  | nil => rfl
  | cons r rs ih =>
      by_cases hr : r.1 = u
      · simp [findUser, hr] at h
      · simp [findUser, hr] at h ⊢
        exact ih h

theorem findUser_append_of_isSome (l1 l2 : List (String × String)) (u : String)
    (h : (findUser l1 u).isSome = true) : findUser (l1 ++ l2) u = findUser l1 u := by
  induction l1 with
  | nil => simp [findUser] at h
  | cons r rs ih =>
      by_cases hr : r.1 = u
      · simp [findUser, hr]
      · simp [findUser, hr] at h ⊢
        exact ih h

theorem findDoc_append_of_none (l1 l2 : List (String × Json × Json)) (u : String)
    (h : findDoc l1 u = none) : findDoc (l1 ++ l2) u = findDoc l2 u := by
  induction l1 with
  | nil => rfl
  | cons r rs ih =>
      by_cases hr : r.1 = u
      · simp [findDoc, hr] at h
      · simp [findDoc, hr] at h ⊢
        exact ih h

theorem findDoc_append_of_isSome (l1 l2 : List (String × Json × Json)) (u : String)
    (h : (findDoc l1 u).isSome = true) : findDoc (l1 ++ l2) u = findDoc l1 u := by
  induction l1 with
  | nil => simp [findDoc] at h
  | cons r rs ih =>
      by_cases hr : r.1 = u
      · simp [findDoc, hr]
      · simp [findDoc, hr] at h ⊢
        exact ih h

theorem findDoc_updateDoc_self (l : List (String × Json × Json)) (u : String) (p e : Json) :
    findDoc (updateDoc l u p e) u = (findDoc l u).map (fun _ => (p, e)) := by
  induction l with
  | nil => rfl
  | cons r rs ih =>
      by_cases hr : r.1 = u
      · simp [updateDoc, findDoc, hr]
      · simp [updateDoc, findDoc, hr, ih]

theorem findDoc_updateDoc_isSome (l : List (String × Json × Json)) (u : String) (p e : Json)
    (x : String) :
    (findDoc (updateDoc l u p e) x).isSome = (findDoc l x).isSome := by
  induction l with
  | nil => rfl
  | cons r rs ih =>
      simp only [updateDoc]
      by_cases hr : r.1 = u
      · rw [if_pos hr]
        by_cases hx : r.1 = x
        · simp [findDoc, hx]
        · simp [findDoc, hx, ih]
      · rw [if_neg hr]
        by_cases hx : r.1 = x
        · simp [findDoc, hx]
        · simp [findDoc, hx, ih]

theorem mem_updateDoc_key (l : List (String × Json × Json)) (u : String) (p e : Json)
    (r : String × Json × Json) (h : r ∈ updateDoc l u p e) : ∃ r0 ∈ l, r0.1 = r.1 := by
  induction l with
  | nil => simp [updateDoc] at h
  | cons r1 rs ih =>
      simp only [updateDoc, List.mem_cons] at h
      rcases h with h | h
      · refine ⟨r1, List.mem_cons_self r1 rs, ?_⟩
        rw [h]
        by_cases hr : r1.1 = u <;> simp [hr]
      · rcases ih h with ⟨r0, hr0, hk⟩
        exact ⟨r0, List.mem_cons_of_mem r1 hr0, hk⟩

theorem findUser_isSome_iff (l : List (String × String)) (u : String) :
    (findUser l u).isSome = true ↔ ∃ r ∈ l, r.1 = u := by
  induction l with
  | nil => simp [findUser]
  | cons r rs ih =>
      by_cases hr : r.1 = u
      · simp [findUser, hr]
      · simp only [findUser, if_neg hr, ih, List.mem_cons]
        constructor
        · rintro ⟨r0, hm, hk⟩
          exact ⟨r0, Or.inr hm, hk⟩
        · rintro ⟨r0, hm | hm, hk⟩
          · exact absurd (hm ▸ hk) hr
          · exact ⟨r0, hm, hk⟩

theorem findCred_isSome_iff (l : List (String × String)) (u p : String) :
    (findCred l u p).isSome = true ↔ ∃ r ∈ l, r.1 = u ∧ r.2 = p := by
  induction l with
  | nil => simp [findCred]
  | cons r rs ih =>
      by_cases hr : r.1 = u ∧ r.2 = p
      · simp [findCred, hr]
      · simp only [findCred, if_neg hr, ih, List.mem_cons]
        constructor
        · rintro ⟨r0, hm, hk⟩
          exact ⟨r0, Or.inr hm, hk⟩
        · rintro ⟨r0, hm | hm, hk⟩
          · exact absurd (hm ▸ hk) hr
          · exact ⟨r0, hm, hk⟩

/-! ## Lemmas about ensureUser, upsertDoc and the handlers -/

theorem ensureUser_docs (db : DB) (u : String) : (ensureUser db u).docs = db.docs := by
  unfold ensureUser
  cases findUser db.users u <;> rfl

theorem findUser_ensureUser_self (db : DB) (u : String) :
    (findUser (ensureUser db u).users u).isSome = true := by
  unfold ensureUser
  cases h : findUser db.users u with
  | some r => simp [h]
  | none => simp [findUser_append_of_none db.users _ u h, findUser]

theorem findUser_ensureUser_of_none (db : DB) (u : String) (h : findUser db.users u = none) :
    findUser (ensureUser db u).users u = some (u, sentinelPassword) := by
  unfold ensureUser
  simp [h, findUser_append_of_none db.users _ u h, findUser]

theorem findUser_ensureUser_mono (db : DB) (u x : String)
    (h : (findUser db.users x).isSome = true) :
    (findUser (ensureUser db u).users x).isSome = true := by
  unfold ensureUser
  cases hf : findUser db.users u with
  | some r => simpa using h
  | none => simp [findUser_append_of_isSome db.users _ x h, h]

theorem upsertDoc_of_user (db : DB) (u : String) (p e : Json)
    (h : (findUser db.users u).isSome = true) :
    ∃ db2, upsertDoc db u p e = some db2
      ∧ db2.users = db.users
      ∧ findDoc db2.docs u = some (p, e)
      ∧ (∀ r ∈ db2.docs, r.1 = u ∨ ∃ r0 ∈ db.docs, r0.1 = r.1)
      ∧ (∀ x, (findDoc db.docs x).isSome = true → (findDoc db2.docs x).isSome = true) := by
  unfold upsertDoc
  cases hd : findDoc db.docs u with
  | some pe =>
      refine ⟨_, rfl, rfl, ?_, ?_, ?_⟩
      · rw [findDoc_updateDoc_self, hd]
        rfl
      · intro r hr
        rcases mem_updateDoc_key db.docs u p e r hr with ⟨r0, hm, hk⟩
        exact Or.inr ⟨r0, hm, hk⟩
      · intro x hx
        rw [findDoc_updateDoc_isSome]
        exact hx
  | none =>
      rw [if_pos h]
      refine ⟨_, rfl, rfl, ?_, ?_, ?_⟩
      · simp only []
        rw [findDoc_append_of_none db.docs _ u hd]
        simp [findDoc]
      · intro r hr
        simp only [List.mem_append, List.mem_singleton] at hr
        rcases hr with hr | hr
        · exact Or.inr ⟨r, hr, rfl⟩
        · exact Or.inl (by rw [hr])
      · intro x hx
        simp only []
        rw [findDoc_append_of_isSome db.docs _ x hx]
        exact hx

theorem saveData_v2_eq (db : DB) (u : String) (p e : Json) (hu : u ≠ "") :
    ∃ db2, saveData_v2 db (some u) (some p) (some e) = (db2, ⟨200, Body.msg Msg.saved⟩)
      ∧ db2.users = (ensureUser db u).users
      ∧ findDoc db2.docs u = some (p, e)
      ∧ (∀ r ∈ db2.docs, r.1 = u ∨ ∃ r0 ∈ db.docs, r0.1 = r.1)
      ∧ (∀ x, (findDoc db.docs x).isSome = true → (findDoc db2.docs x).isSome = true) := by
  rcases upsertDoc_of_user (ensureUser db u) u p e (findUser_ensureUser_self db u) with
    ⟨db2, hup, hus, hdoc, hkeys, hmono⟩
  refine ⟨db2, ?_, hus, hdoc, ?_, ?_⟩
  · simp [saveData_v2, hu, hup]
  · intro r hr
    rcases hkeys r hr with hk | ⟨r0, hm, hk⟩
    · exact Or.inl hk
    · rw [ensureUser_docs] at hm
      exact Or.inr ⟨r0, hm, hk⟩
  · intro x hx
    apply hmono
    rw [ensureUser_docs]
    exact hx

theorem loadData_congr (db1 db2 : DB) (u : String) (hu : u ≠ "")
    (h : findDoc db1.docs u = findDoc db2.docs u) :
    (loadData db1 u).2 = (loadData db2 u).2 := by
  unfold loadData
  rw [if_neg hu, if_neg hu, h]
  cases findDoc db2.docs u <;> rfl

theorem truthy_jsOrEmpty (j : Json) : truthy (jsOrEmpty j) = true := by
  unfold jsOrEmpty
  by_cases h : truthy j = true
  · rw [if_pos h]
    exact h
  · rw [if_neg h]
    rfl

theorem jsOrEmpty_of_truthy (j : Json) (h : truthy j = true) : jsOrEmpty j = j := by
  simp [jsOrEmpty, h]

theorem jsOrEmpty_of_falsy (j : Json) (h : truthy j = false) : jsOrEmpty j = Json.arr [] := by
  simp [jsOrEmpty, h]

theorem register_docs (db : DB) (un pw : Option String) :
    (register db un pw).1.docs = db.docs := by
  unfold register
  rcases un with _ | u
  · rfl
  · rcases pw with _ | p
    · rfl
    · dsimp only
      by_cases h : u = "" ∨ p = ""
      · rw [if_pos h]
      · rw [if_neg h]
        cases findUser db.users u <;> rfl

theorem login_state (db : DB) (un pw : Option String) : (login db un pw).1 = db := by
  unfold login
  rcases un with _ | u
  · rfl
  · rcases pw with _ | p
    · rfl
    · dsimp only
      by_cases h : u = "" ∨ p = ""
      · rw [if_pos h]
      · rw [if_neg h]
        cases findCred db.users u p <;> rfl

theorem loadData_state (db : DB) (u : String) : (loadData db u).1 = db := by
  unfold loadData
  by_cases h : u = ""
  · rw [if_pos h]
  · rw [if_neg h]
    cases findDoc db.docs u <;> rfl

theorem upsertDoc_findDoc_self (db : DB) (u : String) (p e : Json) (db2 : DB)
    (h : upsertDoc db u p e = some db2) : findDoc db2.docs u = some (p, e) := by
  unfold upsertDoc at h
  cases hd : findDoc db.docs u with
  | some pe =>
      rw [hd] at h
      cases h
      rw [findDoc_updateDoc_self, hd]
      rfl
  | none =>
      rw [hd] at h
      by_cases hfu : (findUser db.users u).isSome = true
      · rw [if_pos hfu] at h
        cases h
        rw [findDoc_append_of_none db.docs _ u hd]
        simp [findDoc]
      · rw [if_neg hfu] at h
        cases h

theorem upsertDoc_mono (db : DB) (u : String) (p e : Json) (db2 : DB)
    (h : upsertDoc db u p e = some db2) (x : String)
    (hx : (findDoc db.docs x).isSome = true) : (findDoc db2.docs x).isSome = true := by
  unfold upsertDoc at h
  cases hd : findDoc db.docs u with
  | some pe =>
      rw [hd] at h
      cases h
      rw [findDoc_updateDoc_isSome]
      exact hx
  | none =>
      rw [hd] at h
      by_cases hfu : (findUser db.users u).isSome = true
      · rw [if_pos hfu] at h
        cases h
        simp only []
        rw [findDoc_append_of_isSome db.docs _ x hx]
        exact hx
      · rw [if_neg hfu] at h
        cases h

theorem saveData_v1_mono (db : DB) (un : Option String) (pn en : Option Json) (x : String)
    (hx : docPresent db x = true) : docPresent (saveData_v1 db un pn en).1 x = true := by
  unfold saveData_v1
  rcases un with _ | u
  · exact hx
  · rcases pn with _ | p
    · exact hx
    · rcases en with _ | e
      · exact hx
      · dsimp only
        by_cases hu : u = ""
        · rw [if_pos hu]
          exact hx
        · rw [if_neg hu]
          cases hup : upsertDoc db u p e with
          | some db2 => exact upsertDoc_mono db u p e db2 hup x hx
          | none => exact hx

theorem saveData_v2_mono (db : DB) (un : Option String) (pn en : Option Json) (x : String)
    (hx : docPresent db x = true) : docPresent (saveData_v2 db un pn en).1 x = true := by
  unfold saveData_v2
  rcases un with _ | u
  · exact hx
  · rcases pn with _ | p
    · exact hx
    · rcases en with _ | e
      · exact hx
      · dsimp only
        have hx1 : docPresent (ensureUser db u) x = true := by
          unfold docPresent
          rw [ensureUser_docs]
          exact hx
        by_cases hu : u = ""
        · rw [if_pos hu]
          exact hx
        · rw [if_neg hu]
          cases hup : upsertDoc (ensureUser db u) u p e with
          | some db2 => exact upsertDoc_mono (ensureUser db u) u p e db2 hup x hx1
          | none => exact hx1

theorem saveData_v1_present_of_ok (db : DB) (u : String) (p e : Json)
    (hok : (saveData_v1 db (some u) (some p) (some e)).2.status = 200) :
    docPresent (saveData_v1 db (some u) (some p) (some e)).1 u = true := by
  unfold saveData_v1 at hok ⊢
  dsimp only at hok ⊢
  by_cases hu : u = ""
  · rw [if_pos hu] at hok
    simp at hok
  · rw [if_neg hu] at hok ⊢
    cases hup : upsertDoc db u p e with
    | some db2 =>
        unfold docPresent
        dsimp only
        rw [upsertDoc_findDoc_self db u p e db2 hup]
        rfl
    | none =>
        rw [hup] at hok
        simp at hok

/-! ## Claim theorems -/

/-- C5: for every store state and every non-empty username and credential,
login answers 200 (authenticated) exactly when a `users` row matches both the
username and the password string; it never mutates the store; and whenever it
is not authenticated — unknown username or wrong password alike — it returns
the one fixed 401 response, so the two rejection causes are indistinguishable. -/
theorem login_authenticated_iff (db : DB) (u p : String) (hu : u ≠ "") (hp : p ≠ "") :
    ((login db (some u) (some p)).2 = ⟨200, Body.msg Msg.loginOk⟩
        ↔ ∃ r ∈ db.users, r.1 = u ∧ r.2 = p)
    ∧ (login db (some u) (some p)).1 = db
    ∧ ((¬ ∃ r ∈ db.users, r.1 = u ∧ r.2 = p) →
        (login db (some u) (some p)).2 = ⟨401, Body.msg Msg.badCredentials⟩) := by
  have hred : login db (some u) (some p)
      = (match findCred db.users u p with
         | some _ => (db, ⟨200, Body.msg Msg.loginOk⟩)
         | none => (db, ⟨401, Body.msg Msg.badCredentials⟩)) := by
    simp [login, hu, hp]
  refine ⟨?_, login_state db (some u) (some p), ?_⟩
  · rw [hred]
    cases hfc : findCred db.users u p with
    | some r =>
        constructor
        · intro _
          refine (findCred_isSome_iff db.users u p).mp ?_
          rw [hfc]
          rfl
        · intro _
          rfl
    | none =>
        constructor
        · intro hcontr
          have h401 : (401 : Nat) = 200 := congrArg Resp.status hcontr
          exact absurd h401 (by decide)
        · intro hex
          have hs : (findCred db.users u p).isSome = true :=
            (findCred_isSome_iff db.users u p).mpr hex
          rw [hfc] at hs
          exact absurd hs (by decide)
  · intro h
    rw [← findCred_isSome_iff] at h
    rw [hred]
    cases hfc : findCred db.users u p with
    | some r =>
        rw [hfc] at h
        exact absurd rfl h
    | none => rfl

/-- C5 witness: a concrete one-row store where the matching pair authenticates. -/
theorem login_authenticated_iff_witness :
    (("alice" : String) ≠ "" ∧ ("pw" : String) ≠ "")
    ∧ (((login (DB.mk [("alice", "pw")] []) (some "alice") (some "pw")).2
            = ⟨200, Body.msg Msg.loginOk⟩
          ↔ ∃ r ∈ (DB.mk [("alice", "pw")] []).users, r.1 = "alice" ∧ r.2 = "pw")
        ∧ (login (DB.mk [("alice", "pw")] []) (some "alice") (some "pw")).1
            = DB.mk [("alice", "pw")] []
        ∧ ((¬ ∃ r ∈ (DB.mk [("alice", "pw")] []).users, r.1 = "alice" ∧ r.2 = "pw") →
            (login (DB.mk [("alice", "pw")] []) (some "alice") (some "pw")).2
              = ⟨401, Body.msg Msg.badCredentials⟩)) :=
  ⟨⟨by decide, by decide⟩,
   login_authenticated_iff (DB.mk [("alice", "pw")] []) "alice" "pw" (by decide) (by decide)⟩

/-- C6: for every store state and non-empty username and credentials,
register answers 409 and leaves the store untouched when the username already
has a row; otherwise it appends exactly the one new row and answers 201; and
a second register of the same username (any valid credential) then answers
409, changes nothing, and leaves intact the credential stored by the first call. -/
theorem register_conflict_spec (db : DB) (u p p2 : String)
    (hu : u ≠ "") (hp : p ≠ "") (hp2 : p2 ≠ "") :
    ((∃ r ∈ db.users, r.1 = u) →
        register db (some u) (some p) = (db, ⟨409, Body.msg Msg.usernameTaken⟩))
    ∧ ((¬ ∃ r ∈ db.users, r.1 = u) →
        register db (some u) (some p)
            = ({ db with users := db.users ++ [(u, p)] }, ⟨201, Body.msg Msg.registered⟩)
        ∧ (register (register db (some u) (some p)).1 (some u) (some p2)).2
            = ⟨409, Body.msg Msg.usernameTaken⟩
        ∧ (register (register db (some u) (some p)).1 (some u) (some p2)).1
            = (register db (some u) (some p)).1
        ∧ findUser (register (register db (some u) (some p)).1 (some u) (some p2)).1.users u
            = some (u, p)) := by
  have hred : ∀ db0 : DB, register db0 (some u) (some p)
      = (match findUser db0.users u with
         | some _ => (db0, ⟨409, Body.msg Msg.usernameTaken⟩)
         | none =>
             ({ db0 with users := db0.users ++ [(u, p)] }, ⟨201, Body.msg Msg.registered⟩)) := by
    intro db0
    simp [register, hu, hp]
  have hred2 : ∀ db0 : DB, register db0 (some u) (some p2)
      = (match findUser db0.users u with
         | some _ => (db0, ⟨409, Body.msg Msg.usernameTaken⟩)
         | none =>
             ({ db0 with users := db0.users ++ [(u, p2)] }, ⟨201, Body.msg Msg.registered⟩)) := by
    intro db0
    simp [register, hu, hp2]
  constructor
  · intro h
    rw [← findUser_isSome_iff] at h
    rw [hred db]
    cases hfu : findUser db.users u with
    | some r => rfl
    | none => rw [hfu] at h; exact absurd h (by simp)
  · intro h
    rw [← findUser_isSome_iff] at h
    have hnone : findUser db.users u = none := Option.not_isSome_iff_eq_none.mp h
    have h1 : register db (some u) (some p)
        = ({ db with users := db.users ++ [(u, p)] }, ⟨201, Body.msg Msg.registered⟩) := by
      rw [hred db, hnone]
    have hfind : findUser (db.users ++ [(u, p)]) u = some (u, p) := by
      rw [findUser_append_of_none db.users _ u hnone]
      simp [findUser]
    refine ⟨h1, ?_, ?_, ?_⟩
    · rw [h1, hred2 _]
      simp only [hfind]
    · rw [h1, hred2 _]
      simp only [hfind]
    · rw [h1, hred2 _]
      simp only [hfind]

/-- C6 witness: registering bob twice on the empty store. -/
theorem register_conflict_spec_witness :
    (("bob" : String) ≠ "" ∧ ("pw1" : String) ≠ "" ∧ ("pw2" : String) ≠ "")
    ∧ (((∃ r ∈ (DB.mk [] []).users, r.1 = "bob") →
          register (DB.mk [] []) (some "bob") (some "pw1")
            = (DB.mk [] [], ⟨409, Body.msg Msg.usernameTaken⟩))
      ∧ ((¬ ∃ r ∈ (DB.mk [] []).users, r.1 = "bob") →
          register (DB.mk [] []) (some "bob") (some "pw1")
              = ({ DB.mk [] [] with users := (DB.mk [] []).users ++ [("bob", "pw1")] },
                 ⟨201, Body.msg Msg.registered⟩)
          ∧ (register (register (DB.mk [] []) (some "bob") (some "pw1")).1
                (some "bob") (some "pw2")).2 = ⟨409, Body.msg Msg.usernameTaken⟩
          ∧ (register (register (DB.mk [] []) (some "bob") (some "pw1")).1
                (some "bob") (some "pw2")).1
              = (register (DB.mk [] []) (some "bob") (some "pw1")).1
          ∧ findUser (register (register (DB.mk [] []) (some "bob") (some "pw1")).1
                (some "bob") (some "pw2")).1.users "bob" = some ("bob", "pw1"))) :=
  ⟨⟨by decide, by decide, by decide⟩,
   register_conflict_spec (DB.mk [] []) "bob" "pw1" "pw2" (by decide) (by decide) (by decide)⟩

/-- C10: for register and login, a username or credential field that is present
but equal to the empty string draws exactly the same 400 response, with no
store change, as a field that is absent altogether: the handlers test
JavaScript falsiness, so the two cases are indistinguishable at the interface. -/
theorem empty_string_fields_rejected (db : DB) (u p : String) :
    register db (some "") (some p) = (db, ⟨400, Body.msg Msg.missingCredentials⟩)
    ∧ register db (some u) (some "") = (db, ⟨400, Body.msg Msg.missingCredentials⟩)
    ∧ register db none (some p) = (db, ⟨400, Body.msg Msg.missingCredentials⟩)
    ∧ register db (some u) none = (db, ⟨400, Body.msg Msg.missingCredentials⟩)
    ∧ login db (some "") (some p) = (db, ⟨400, Body.msg Msg.missingCredentials⟩)
    ∧ login db (some u) (some "") = (db, ⟨400, Body.msg Msg.missingCredentials⟩)
    ∧ login db none (some p) = (db, ⟨400, Body.msg Msg.missingCredentials⟩)
    ∧ login db (some u) none = (db, ⟨400, Body.msg Msg.missingCredentials⟩) :=
  ⟨by simp [register], by simp [register], rfl, rfl,
   by simp [login], by simp [login], rfl, rfl⟩

theorem findDoc_eq_some_mem (l : List (String × Json × Json)) (u : String)
    (pe : Json × Json) (h : findDoc l u = some pe) : ∃ r ∈ l, r.1 = u ∧ r.2 = pe := by
  induction l with
  | nil => simp [findDoc] at h
  | cons r rs ih =>
      by_cases hr : r.1 = u
      · simp only [findDoc, if_pos hr] at h
        cases h
        exact ⟨r, List.mem_cons_self r rs, hr, rfl⟩
      · simp only [findDoc, if_neg hr] at h
        rcases ih h with ⟨r0, hm, hk, hv⟩
        exact ⟨r0, List.mem_cons_of_mem r hm, hk, hv⟩

/-- C1 counterexample: `null` passes saveData validation (it is distinct from
`undefined`), the save succeeds, but load reads the stored `null` back as `[]`,
so the round-trip is not the identity on everything validation accepts. -/
theorem save_load_roundtrip_cex :
    (saveData_v2 (DB.mk [] []) (some "alice") (some Json.null) (some (Json.arr []))).2
      = ⟨200, Body.msg Msg.saved⟩
    ∧ (loadData (saveData_v2 (DB.mk [] []) (some "alice") (some Json.null)
          (some (Json.arr []))).1 "alice").2
      = ⟨200, Body.data (Json.arr []) (Json.arr [])⟩
    ∧ Json.arr [] ≠ Json.null :=
  ⟨rfl, rfl, fun h => Json.noConfusion h⟩

/-- C1 amended: save followed by load on the same username returns exactly the
saved personnes and equipes whenever both saved values are truthy JSON values —
in particular all sequences, empty ones included; a falsy saved value (null,
false, 0 or the empty string) is read back as `[]` instead. For the server.js
save variant the same holds provided the username has an account row (otherwise
that the save of that variant itself fails on the foreign key). -/
theorem save_load_roundtrip (db : DB) (u : String) (p e : Json) (hu : u ≠ "")
    (hp : truthy p = true) (he : truthy e = true) :
    (loadData (saveData_v2 db (some u) (some p) (some e)).1 u).2
      = ⟨200, Body.data p e⟩
    ∧ ((findUser db.users u).isSome = true →
        (loadData (saveData_v1 db (some u) (some p) (some e)).1 u).2
          = ⟨200, Body.data p e⟩) := by
  constructor
  · rcases saveData_v2_eq db u p e hu with ⟨db2, heq, -, hdoc, -, -⟩
    rw [heq]
    unfold loadData
    rw [if_neg hu]
    dsimp only
    rw [hdoc]
    dsimp only
    rw [jsOrEmpty_of_truthy p hp, jsOrEmpty_of_truthy e he]
  · intro hus
    rcases upsertDoc_of_user db u p e hus with ⟨db2, hup, -, hdoc, -, -⟩
    have heq : saveData_v1 db (some u) (some p) (some e) = (db2, ⟨200, Body.msg Msg.saved⟩) := by
      simp [saveData_v1, hu, hup]
    rw [heq]
    unfold loadData
    rw [if_neg hu]
    dsimp only
    rw [hdoc]
    dsimp only
    rw [jsOrEmpty_of_truthy p hp, jsOrEmpty_of_truthy e he]

/-- C1 witness: saving one person record and an empty team list for alice and
loading it back returns exactly the saved values. -/
theorem save_load_roundtrip_witness :
    (("alice" : String) ≠ ""
      ∧ truthy (Json.arr [Json.obj [("id", Json.num 1), ("name", Json.str "A")]]) = true
      ∧ truthy (Json.arr []) = true)
    ∧ ((loadData (saveData_v2 (DB.mk [] []) (some "alice")
            (some (Json.arr [Json.obj [("id", Json.num 1), ("name", Json.str "A")]]))
            (some (Json.arr []))).1 "alice").2
        = ⟨200, Body.data (Json.arr [Json.obj [("id", Json.num 1), ("name", Json.str "A")]])
            (Json.arr [])⟩
      ∧ ((findUser (DB.mk [] [] : DB).users "alice").isSome = true →
          (loadData (saveData_v1 (DB.mk [] []) (some "alice")
              (some (Json.arr [Json.obj [("id", Json.num 1), ("name", Json.str "A")]]))
              (some (Json.arr []))).1 "alice").2
            = ⟨200, Body.data (Json.arr [Json.obj [("id", Json.num 1), ("name", Json.str "A")]])
                (Json.arr [])⟩)) :=
  ⟨⟨by decide, rfl, rfl⟩,
   save_load_roundtrip (DB.mk [] []) "alice"
     (Json.arr [Json.obj [("id", Json.num 1), ("name", Json.str "A")]]) (Json.arr [])
     (by decide) rfl rfl⟩

/-- C4 counterexample: on the `server.js` variant, a save for the unregistered
username ivan, for whom no document row exists, does not create a row with the
supplied values — the upsert hits the foreign key, the handler answers 500, and
the store still has no row for ivan — so it is not true of every username that
save creates the document row when none exists. -/
theorem save_upsert_replace_cex :
    findDoc (DB.mk [] [] : DB).docs "ivan" = none
    ∧ saveData_v1 (DB.mk [] []) (some "ivan") (some (Json.arr [])) (some (Json.arr []))
        = (DB.mk [] [], ⟨500, Body.msg Msg.saveError⟩)
    ∧ findDoc (saveData_v1 (DB.mk [] []) (some "ivan") (some (Json.arr []))
          (some (Json.arr []))).1.docs "ivan" = none :=
  ⟨rfl, rfl, rfl⟩

/-- C4 amended: the save upsert stores exactly the supplied pair whether or not
a row existed (create or full replace, no merge), and the load after two
successive saves of the same username coincides with the load after only the
second save, so nothing of the first payload survives — unconditionally for the
auto-creating variant, and for the `server.js` variant once the username has an
account row (otherwise that save fails on the foreign key and writes nothing). -/
theorem save_upsert_replace (db : DB) (u : String) (p1 e1 p2 e2 : Json) (hu : u ≠ "") :
    findDoc (saveData_v2 db (some u) (some p2) (some e2)).1.docs u = some (p2, e2)
    ∧ (loadData (saveData_v2 (saveData_v2 db (some u) (some p1) (some e1)).1
          (some u) (some p2) (some e2)).1 u).2
        = (loadData (saveData_v2 db (some u) (some p2) (some e2)).1 u).2
    ∧ ((findUser db.users u).isSome = true →
        findDoc (saveData_v1 db (some u) (some p2) (some e2)).1.docs u = some (p2, e2)) := by
  rcases saveData_v2_eq db u p2 e2 hu with ⟨db2, heq2, -, hdoc2, -, -⟩
  refine ⟨?_, ?_, ?_⟩
  · rw [heq2]
    exact hdoc2
  · rcases saveData_v2_eq (saveData_v2 db (some u) (some p1) (some e1)).1 u p2 e2 hu with
      ⟨db3, heq3, -, hdoc3, -, -⟩
    apply loadData_congr _ _ u hu
    rw [heq3, heq2]
    dsimp only
    rw [hdoc3, hdoc2]
  · intro hus
    rcases upsertDoc_of_user db u p2 e2 hus with ⟨db4, hup, -, hdoc4, -, -⟩
    have heq4 : saveData_v1 db (some u) (some p2) (some e2)
        = (db4, ⟨200, Body.msg Msg.saved⟩) := by
      simp [saveData_v1, hu, hup]
    rw [heq4]
    exact hdoc4

/-- C4 witness: two saves for carol; the load sees only the second payload. -/
theorem save_upsert_replace_witness :
    (("carol" : String) ≠ "")
    ∧ (findDoc (saveData_v2 (DB.mk [] []) (some "carol") (some (Json.arr []))
          (some (Json.arr [Json.str "t"]))).1.docs "carol"
        = some (Json.arr [], Json.arr [Json.str "t"])
      ∧ (loadData (saveData_v2 (saveData_v2 (DB.mk [] []) (some "carol")
            (some (Json.arr [Json.str "x"])) (some (Json.arr []))).1
            (some "carol") (some (Json.arr [])) (some (Json.arr [Json.str "t"]))).1 "carol").2
          = (loadData (saveData_v2 (DB.mk [] []) (some "carol") (some (Json.arr []))
              (some (Json.arr [Json.str "t"]))).1 "carol").2
      ∧ ((findUser (DB.mk [] [] : DB).users "carol").isSome = true →
          findDoc (saveData_v1 (DB.mk [] []) (some "carol") (some (Json.arr []))
              (some (Json.arr [Json.str "t"]))).1.docs "carol"
            = some (Json.arr [], Json.arr [Json.str "t"]))) :=
  ⟨by decide,
   save_upsert_replace (DB.mk [] []) "carol" (Json.arr [Json.str "x"]) (Json.arr [])
     (Json.arr []) (Json.arr [Json.str "t"]) (by decide)⟩

/-- C3 counterexample: a reachable store holds `null` as the personnes of bob
(null passes save validation); a row exists, yet load does not return the
stored value — it substitutes `[]`. -/
theorem load_returns_stored_cex :
    findDoc (saveData_v2 (DB.mk [] []) (some "bob") (some Json.null)
        (some (Json.arr []))).1.docs "bob" = some (Json.null, Json.arr [])
    ∧ (loadData (saveData_v2 (DB.mk [] []) (some "bob") (some Json.null)
          (some (Json.arr []))).1 "bob").2
        = ⟨200, Body.data (Json.arr []) (Json.arr [])⟩
    ∧ Body.data (Json.arr []) (Json.arr []) ≠ Body.data Json.null (Json.arr []) :=
  ⟨rfl, rfl, by intro h; injection h with h1 h2; exact Json.noConfusion h1⟩

/-- C3 amended: for every non-empty username, load always answers 200, never
mutates the store, and is idempotent; with no row it returns empty arrays for
both fields; with a row it returns the stored values passed through the
JavaScript `x || []` normalisation (so a falsy stored field, such as null,
comes back as `[]` rather than as the stored value). -/
theorem load_spec (db : DB) (u : String) (hu : u ≠ "") :
    (loadData db u).1 = db
    ∧ (loadData db u).2.status = 200
    ∧ (findDoc db.docs u = none →
        (loadData db u).2 = ⟨200, Body.data (Json.arr []) (Json.arr [])⟩)
    ∧ (∀ p e, findDoc db.docs u = some (p, e) →
        (loadData db u).2 = ⟨200, Body.data (jsOrEmpty p) (jsOrEmpty e)⟩)
    ∧ loadData (loadData db u).1 u = loadData db u := by
  refine ⟨loadData_state db u, ?_, ?_, ?_, ?_⟩
  · unfold loadData
    rw [if_neg hu]
    cases findDoc db.docs u <;> rfl
  · intro h
    unfold loadData
    rw [if_neg hu, h]
  · intro p e h
    unfold loadData
    rw [if_neg hu, h]
  · rw [loadData_state]

/-- C3 witness: loading a username that was never saved on the empty store. -/
theorem load_spec_witness :
    (("dave" : String) ≠ "")
    ∧ ((loadData (DB.mk [] []) "dave").1 = DB.mk [] []
      ∧ (loadData (DB.mk [] []) "dave").2.status = 200
      ∧ (findDoc (DB.mk [] [] : DB).docs "dave" = none →
          (loadData (DB.mk [] []) "dave").2
            = ⟨200, Body.data (Json.arr []) (Json.arr [])⟩)
      ∧ (∀ p e, findDoc (DB.mk [] [] : DB).docs "dave" = some (p, e) →
          (loadData (DB.mk [] []) "dave").2
            = ⟨200, Body.data (jsOrEmpty p) (jsOrEmpty e)⟩)
      ∧ loadData (loadData (DB.mk [] []) "dave").1 "dave" = loadData (DB.mk [] []) "dave") :=
  ⟨by decide, load_spec (DB.mk [] []) "dave" (by decide)⟩

/-- C9: the fields of a load response are never null nor any other falsy JSON
value: whatever the response is, both fields are truthy; when a row exists the
response carries `jsOrEmpty` of each stored field, which is `[]` exactly when
the stored field is falsy; and the validation in save indeed accepts `null`
(distinct from `undefined`), which is how a falsy field gets stored. -/
theorem load_fields_never_falsy (db : DB) (u : String) (p0 e0 : Json) (hu : u ≠ "") :
    (∀ p e, (loadData db u).2 = ⟨200, Body.data p e⟩ →
        truthy p = true ∧ truthy e = true)
    ∧ (findDoc db.docs u = some (p0, e0) →
        (loadData db u).2 = ⟨200, Body.data (jsOrEmpty p0) (jsOrEmpty e0)⟩
        ∧ (truthy p0 = false → jsOrEmpty p0 = Json.arr [])
        ∧ (truthy e0 = false → jsOrEmpty e0 = Json.arr []))
    ∧ (saveData_v2 db (some u) (some Json.null) (some Json.null)).2
        = ⟨200, Body.msg Msg.saved⟩ := by
  refine ⟨?_, ?_, ?_⟩
  · intro p e h
    unfold loadData at h
    rw [if_neg hu] at h
    cases hd : findDoc db.docs u with
    | some pe =>
        rw [hd] at h
        dsimp only at h
        injection h with hs hb
        injection hb with hp he
        rw [← hp, ← he]
        exact ⟨truthy_jsOrEmpty pe.1, truthy_jsOrEmpty pe.2⟩
    | none =>
        rw [hd] at h
        dsimp only at h
        injection h with hs hb
        injection hb with hp he
        rw [← hp, ← he]
        exact ⟨rfl, rfl⟩
  · intro h
    refine ⟨?_, jsOrEmpty_of_falsy p0, jsOrEmpty_of_falsy e0⟩
    unfold loadData
    rw [if_neg hu, h]
  · rcases saveData_v2_eq db u Json.null Json.null hu with ⟨db2, heq, -, -, -, -⟩
    rw [heq]

/-- C9 witness: a store where the personnes field of eve is stored as null. -/
theorem load_fields_never_falsy_witness :
    (("eve" : String) ≠ "")
    ∧ ((∀ p e, (loadData (DB.mk [("eve", "pw")] [("eve", Json.null, Json.arr [])]) "eve").2
            = ⟨200, Body.data p e⟩ → truthy p = true ∧ truthy e = true)
      ∧ (findDoc (DB.mk [("eve", "pw")] [("eve", Json.null, Json.arr [])] : DB).docs "eve"
            = some (Json.null, Json.arr []) →
          (loadData (DB.mk [("eve", "pw")] [("eve", Json.null, Json.arr [])]) "eve").2
              = ⟨200, Body.data (jsOrEmpty Json.null) (jsOrEmpty (Json.arr []))⟩
          ∧ (truthy Json.null = false → jsOrEmpty Json.null = Json.arr [])
          ∧ (truthy (Json.arr []) = false → jsOrEmpty (Json.arr []) = Json.arr []))
      ∧ (saveData_v2 (DB.mk [("eve", "pw")] [("eve", Json.null, Json.arr [])])
            (some "eve") (some Json.null) (some Json.null)).2
          = ⟨200, Body.msg Msg.saved⟩) :=
  ⟨by decide,
   load_fields_never_falsy (DB.mk [("eve", "pw")] [("eve", Json.null, Json.arr [])])
     "eve" Json.null (Json.arr []) (by decide)⟩

/-- C7 counterexample: on the `server.js` variant, a save request for the
unregistered username judy with personnes equal to the explicit empty array
(and equipes present) passes validation yet does not succeed — the upsert hits
the foreign key and the handler answers 500 with the store unchanged — so it is
not true of every request that a `personnes: []` save succeeds. -/
theorem save_validation_empty_array_cex :
    saveData_v1 (DB.mk [] []) (some "judy") (some (Json.arr []))
        (some (Json.arr [Json.str "t"]))
      = (DB.mk [] [], ⟨500, Body.msg Msg.saveError⟩) :=
  rfl

/-- C7 amended: a save request with an absent or empty username, or with
personnes or equipes absent (`undefined`), is rejected with the 400 validation
response and the store is untouched — in both save variants; whereas personnes
equal to the explicit empty array `[]` passes validation and the save succeeds,
with the subsequent load returning `[]` for that field — unconditionally in the
auto-creating variant, and in the `server.js` variant once the username has an
account row (otherwise that save fails on the foreign key): empty collections
are valid and distinct from missing fields. -/
theorem save_validation_empty_array (db : DB) (u : String) (p e : Json) (hu : u ≠ "") :
    saveData_v2 db none (some p) (some e) = (db, ⟨400, Body.msg Msg.missingSaveFields⟩)
    ∧ saveData_v2 db (some "") (some p) (some e)
        = (db, ⟨400, Body.msg Msg.missingSaveFields⟩)
    ∧ saveData_v2 db (some u) none (some e) = (db, ⟨400, Body.msg Msg.missingSaveFields⟩)
    ∧ saveData_v2 db (some u) (some p) none = (db, ⟨400, Body.msg Msg.missingSaveFields⟩)
    ∧ saveData_v1 db none (some p) (some e) = (db, ⟨400, Body.msg Msg.missingSaveFields⟩)
    ∧ saveData_v1 db (some "") (some p) (some e)
        = (db, ⟨400, Body.msg Msg.missingSaveFields⟩)
    ∧ saveData_v1 db (some u) none (some e) = (db, ⟨400, Body.msg Msg.missingSaveFields⟩)
    ∧ saveData_v1 db (some u) (some p) none = (db, ⟨400, Body.msg Msg.missingSaveFields⟩)
    ∧ (saveData_v2 db (some u) (some (Json.arr [])) (some e)).2
        = ⟨200, Body.msg Msg.saved⟩
    ∧ (loadData (saveData_v2 db (some u) (some (Json.arr [])) (some e)).1 u).2
        = ⟨200, Body.data (Json.arr []) (jsOrEmpty e)⟩
    ∧ ((findUser db.users u).isSome = true →
        (saveData_v1 db (some u) (some (Json.arr [])) (some e)).2
            = ⟨200, Body.msg Msg.saved⟩
        ∧ (loadData (saveData_v1 db (some u) (some (Json.arr [])) (some e)).1 u).2
            = ⟨200, Body.data (Json.arr []) (jsOrEmpty e)⟩) := by
  rcases saveData_v2_eq db u (Json.arr []) e hu with ⟨db2, heq, -, hdoc, -, -⟩
  refine ⟨rfl, by simp [saveData_v2], rfl, rfl, rfl, by simp [saveData_v1], rfl, rfl,
    ?_, ?_, ?_⟩
  · rw [heq]
  · rw [heq]
    unfold loadData
    rw [if_neg hu]
    dsimp only
    rw [hdoc]
    dsimp only
    rw [jsOrEmpty_of_truthy (Json.arr []) rfl]
  · intro hus
    rcases upsertDoc_of_user db u (Json.arr []) e hus with ⟨db3, hup, -, hdoc3, -, -⟩
    have heq3 : saveData_v1 db (some u) (some (Json.arr [])) (some e)
        = (db3, ⟨200, Body.msg Msg.saved⟩) := by
      simp [saveData_v1, hu, hup]
    refine ⟨by rw [heq3], ?_⟩
    rw [heq3]
    unfold loadData
    rw [if_neg hu]
    dsimp only
    rw [hdoc3]
    dsimp only
    rw [jsOrEmpty_of_truthy (Json.arr []) rfl]

/-- C7 witness: on a store where frank is registered, the validation failures
leave the store untouched, and saving an empty personnes array for frank
succeeds in both variants and loads back as the empty array. -/
theorem save_validation_empty_array_witness :
    (("frank" : String) ≠ "")
    ∧ (saveData_v2 (DB.mk [("frank", "pw")] []) none (some Json.null)
          (some (Json.arr [Json.str "t"]))
        = (DB.mk [("frank", "pw")] [], ⟨400, Body.msg Msg.missingSaveFields⟩)
      ∧ saveData_v2 (DB.mk [("frank", "pw")] []) (some "") (some Json.null)
            (some (Json.arr [Json.str "t"]))
          = (DB.mk [("frank", "pw")] [], ⟨400, Body.msg Msg.missingSaveFields⟩)
      ∧ saveData_v2 (DB.mk [("frank", "pw")] []) (some "frank") none
            (some (Json.arr [Json.str "t"]))
          = (DB.mk [("frank", "pw")] [], ⟨400, Body.msg Msg.missingSaveFields⟩)
      ∧ saveData_v2 (DB.mk [("frank", "pw")] []) (some "frank") (some Json.null) none
          = (DB.mk [("frank", "pw")] [], ⟨400, Body.msg Msg.missingSaveFields⟩)
      ∧ saveData_v1 (DB.mk [("frank", "pw")] []) none (some Json.null)
            (some (Json.arr [Json.str "t"]))
          = (DB.mk [("frank", "pw")] [], ⟨400, Body.msg Msg.missingSaveFields⟩)
      ∧ saveData_v1 (DB.mk [("frank", "pw")] []) (some "") (some Json.null)
            (some (Json.arr [Json.str "t"]))
          = (DB.mk [("frank", "pw")] [], ⟨400, Body.msg Msg.missingSaveFields⟩)
      ∧ saveData_v1 (DB.mk [("frank", "pw")] []) (some "frank") none
            (some (Json.arr [Json.str "t"]))
          = (DB.mk [("frank", "pw")] [], ⟨400, Body.msg Msg.missingSaveFields⟩)
      ∧ saveData_v1 (DB.mk [("frank", "pw")] []) (some "frank") (some Json.null) none
          = (DB.mk [("frank", "pw")] [], ⟨400, Body.msg Msg.missingSaveFields⟩)
      ∧ (saveData_v2 (DB.mk [("frank", "pw")] []) (some "frank") (some (Json.arr []))
            (some (Json.arr [Json.str "t"]))).2 = ⟨200, Body.msg Msg.saved⟩
      ∧ (loadData (saveData_v2 (DB.mk [("frank", "pw")] []) (some "frank")
            (some (Json.arr [])) (some (Json.arr [Json.str "t"]))).1 "frank").2
          = ⟨200, Body.data (Json.arr []) (jsOrEmpty (Json.arr [Json.str "t"]))⟩
      ∧ ((findUser (DB.mk [("frank", "pw")] [] : DB).users "frank").isSome = true →
          (saveData_v1 (DB.mk [("frank", "pw")] []) (some "frank") (some (Json.arr []))
              (some (Json.arr [Json.str "t"]))).2 = ⟨200, Body.msg Msg.saved⟩
          ∧ (loadData (saveData_v1 (DB.mk [("frank", "pw")] []) (some "frank")
                (some (Json.arr [])) (some (Json.arr [Json.str "t"]))).1 "frank").2
              = ⟨200, Body.data (Json.arr []) (jsOrEmpty (Json.arr [Json.str "t"]))⟩)) :=
  ⟨by decide,
   save_validation_empty_array (DB.mk [("frank", "pw")] []) "frank" Json.null
     (Json.arr [Json.str "t"]) (by decide)⟩

/-- C2 counterexample: the `server.js` save variant creates no placeholder
account row — saving for an unregistered username on a fresh store leaves the
store unchanged (no account row for alice) and fails with the 500 store-error
response, the surfaced foreign-key violation. -/
theorem save_placeholder_account_cex :
    saveData_v1 (DB.mk [] []) (some "alice") (some (Json.arr [])) (some (Json.arr []))
      = (DB.mk [] [], ⟨500, Body.msg Msg.saveError⟩)
    ∧ findUser (saveData_v1 (DB.mk [] []) (some "alice") (some (Json.arr []))
          (some (Json.arr []))).1.users "alice" = none :=
  ⟨rfl, rfl⟩

/-- C2 amended: the auto-creating save variant (the unnamed file) first upserts
a placeholder account row with the sentinel credential `no_password_needed`
when the username has none, then upserts the document, succeeds, and preserves
the foreign-key invariant; the `server.js` save variant creates no account row,
and its save for an unregistered username fails with a 500 store error leaving
the store unchanged. -/
theorem save_placeholder_account (db : DB) (u : String) (p e : Json) (hu : u ≠ "")
    (habs : findUser db.users u = none) (hfk : fkInv db) :
    findUser (saveData_v2 db (some u) (some p) (some e)).1.users u
        = some (u, sentinelPassword)
    ∧ (saveData_v2 db (some u) (some p) (some e)).2 = ⟨200, Body.msg Msg.saved⟩
    ∧ saveData_v1 db (some u) (some p) (some e) = (db, ⟨500, Body.msg Msg.saveError⟩)
    ∧ fkInv (saveData_v2 db (some u) (some p) (some e)).1 := by
  rcases saveData_v2_eq db u p e hu with ⟨db2, heq, hus, hdoc, hkeys, -⟩
  have hdnone : findDoc db.docs u = none := by
    cases hd : findDoc db.docs u with
    | some pe =>
        rcases findDoc_eq_some_mem db.docs u pe hd with ⟨r, hm, hk, -⟩
        have := hfk r hm
        rw [hk, habs] at this
        exact absurd this (by decide)
    | none => rfl
  have hup : upsertDoc db u p e = none := by
    unfold upsertDoc
    rw [hdnone, if_neg]
    rw [habs]
    decide
  refine ⟨?_, ?_, ?_, ?_⟩
  · rw [heq]
    dsimp only
    rw [hus]
    exact findUser_ensureUser_of_none db u habs
  · rw [heq]
  · simp [saveData_v1, hu, hup]
  · rw [heq]
    dsimp only
    intro r hr
    rcases hkeys r hr with hk | ⟨r0, hm0, hk0⟩
    · rw [hus, hk]
      exact findUser_ensureUser_self db u
    · rw [hus, ← hk0]
      exact findUser_ensureUser_mono db u r0.1 (hfk r0 hm0)

/-- C2 witness: saving for the unregistered username grace on the empty store. -/
theorem save_placeholder_account_witness :
    (("grace" : String) ≠ ""
      ∧ findUser (DB.mk [] [] : DB).users "grace" = none
      ∧ fkInv (DB.mk [] []))
    ∧ (findUser (saveData_v2 (DB.mk [] []) (some "grace") (some (Json.arr []))
            (some (Json.arr []))).1.users "grace" = some ("grace", sentinelPassword)
      ∧ (saveData_v2 (DB.mk [] []) (some "grace") (some (Json.arr []))
            (some (Json.arr []))).2 = ⟨200, Body.msg Msg.saved⟩
      ∧ saveData_v1 (DB.mk [] []) (some "grace") (some (Json.arr [])) (some (Json.arr []))
          = (DB.mk [] [], ⟨500, Body.msg Msg.saveError⟩)
      ∧ fkInv (saveData_v2 (DB.mk [] []) (some "grace") (some (Json.arr []))
            (some (Json.arr []))).1) :=
  ⟨⟨by decide, rfl, by intro r hr; simp at hr⟩,
   save_placeholder_account (DB.mk [] []) "grace" (Json.arr []) (Json.arr [])
     (by decide) rfl (by intro r hr; simp at hr)⟩

/-- C8: the per-username document is a two-state machine, absent or present.
Every operation of the interface preserves presence (no register, login, save
or load ever removes a document); a valid save in the auto-creating variant
always leaves the document present (create on absent, replace on present); a
`server.js` save that answers 200 does the same; and every operation other
than the saves leaves the whole `user_data` table unchanged, so the saves are
the only transitions of the document state machine. -/
theorem document_state_machine (db : DB) (op : Op) (u : String) (p e : Json) :
    (docPresent db u = true → docPresent (applyOp db op).1 u = true)
    ∧ (u ≠ "" → docPresent (applyOp db (Op.opSave2 (some u) (some p) (some e))).1 u = true)
    ∧ ((applyOp db (Op.opSave1 (some u) (some p) (some e))).2.status = 200 →
        docPresent (applyOp db (Op.opSave1 (some u) (some p) (some e))).1 u = true)
    ∧ (isSaveOp op = false → (applyOp db op).1.docs = db.docs) := by
  refine ⟨?_, ?_, ?_, ?_⟩
  · intro h
    cases op with
    | opRegister un pw =>
        unfold docPresent at h ⊢
        unfold applyOp
        rw [register_docs]
        exact h
    | opLogin un pw =>
        unfold applyOp
        rw [login_state]
        exact h
    | opSave1 un pn en => exact saveData_v1_mono db un pn en u h
    | opSave2 un pn en => exact saveData_v2_mono db un pn en u h
    | opLoad un =>
        unfold applyOp
        rw [loadData_state]
        exact h
  · intro hu
    rcases saveData_v2_eq db u p e hu with ⟨db2, heq, -, hdoc, -, -⟩
    unfold applyOp
    dsimp only
    rw [heq]
    unfold docPresent
    dsimp only
    rw [hdoc]
    rfl
  · intro hok
    exact saveData_v1_present_of_ok db u p e hok
  · intro hns
    cases op with
    | opRegister un pw => exact register_docs db un pw
    | opLogin un pw =>
        unfold applyOp
        rw [login_state]
    | opSave1 un pn en => simp [isSaveOp] at hns
    | opSave2 un pn en => simp [isSaveOp] at hns
    | opLoad un =>
        unfold applyOp
        rw [loadData_state]

/-- C8 witness: on a store where heidi has a document, a load keeps it present,
a save of heidi (either variant) keeps it present, and the load changes no
document row. -/
theorem document_state_machine_witness :
    (docPresent (DB.mk [("heidi", "pw")] [("heidi", Json.arr [], Json.arr [])]) "heidi" = true
      ∧ ("heidi" : String) ≠ ""
      ∧ (applyOp (DB.mk [("heidi", "pw")] [("heidi", Json.arr [], Json.arr [])])
            (Op.opSave1 (some "heidi") (some (Json.arr [])) (some (Json.arr [])))).2.status = 200
      ∧ isSaveOp (Op.opLoad "heidi") = false)
    ∧ docPresent (applyOp (DB.mk [("heidi", "pw")] [("heidi", Json.arr [], Json.arr [])])
          (Op.opLoad "heidi")).1 "heidi" = true
    ∧ docPresent (applyOp (DB.mk [("heidi", "pw")] [("heidi", Json.arr [], Json.arr [])])
          (Op.opSave2 (some "heidi") (some (Json.arr [])) (some (Json.arr [])))).1 "heidi" = true
    ∧ docPresent (applyOp (DB.mk [("heidi", "pw")] [("heidi", Json.arr [], Json.arr [])])
          (Op.opSave1 (some "heidi") (some (Json.arr [])) (some (Json.arr [])))).1 "heidi" = true
    ∧ (applyOp (DB.mk [("heidi", "pw")] [("heidi", Json.arr [], Json.arr [])])
          (Op.opLoad "heidi")).1.docs
        = (DB.mk [("heidi", "pw")] [("heidi", Json.arr [], Json.arr [])] : DB).docs :=
  ⟨⟨rfl, by decide, rfl, rfl⟩,
   (document_state_machine (DB.mk [("heidi", "pw")] [("heidi", Json.arr [], Json.arr [])])
      (Op.opLoad "heidi") "heidi" (Json.arr []) (Json.arr [])).1 rfl,
   (document_state_machine (DB.mk [("heidi", "pw")] [("heidi", Json.arr [], Json.arr [])])
      (Op.opLoad "heidi") "heidi" (Json.arr []) (Json.arr [])).2.1 (by decide),
   (document_state_machine (DB.mk [("heidi", "pw")] [("heidi", Json.arr [], Json.arr [])])
      (Op.opLoad "heidi") "heidi" (Json.arr []) (Json.arr [])).2.2.1 rfl,
   (document_state_machine (DB.mk [("heidi", "pw")] [("heidi", Json.arr [], Json.arr [])])
      (Op.opLoad "heidi") "heidi" (Json.arr []) (Json.arr [])).2.2.2 rfl⟩
